import Mathlib

/-!
A verification development for `src/library/core/src/intrinsics.rs`, the
core-library module declaring compiler intrinsics.  The embedding has two
layers: a declaration table (every intrinsic declaration, with its name and
its `rustc_const_stable` / `rustc_const_unstable` / `rustc_nounwind`
attribute flags, plus the structured form of the atomic family and the list
of functions that are given bodies), and direct translations of the function
bodies that carry actual logic (the branch hints, `ptr_guaranteed_cmp`,
`assume`, the const-heap intrinsics and the safe `copy` /
`copy_nonoverlapping` wrappers), with pointers modelled as numeric
addresses.
-/

set_option maxRecDepth 100000
set_option maxHeartbeats 2000000

namespace Intrinsics

/-- One intrinsic declaration of `intrinsics.rs`: its function name together
with the presence of the `rustc_const_stable`, `rustc_const_unstable` and
`rustc_nounwind` attributes on the declaration.  An intrinsic declaration is
a `fn` item inside an `extern "rust-intrinsic"` block or a `fn` item carrying
the `rustc_intrinsic` attribute. -/
structure IntrinsicDecl where
  name : String
  constStable : Bool
  constUnstable : Bool
  nounwind : Bool
deriving DecidableEq

/-- Part 1 of the intrinsic declaration table (split for elaboration). -/
def intrinsicDeclsP1 : List IntrinsicDecl := [
  ⟨"atomic_cxchg_relaxed_relaxed", false, false, true⟩,
  ⟨"atomic_cxchg_relaxed_acquire", false, false, true⟩,
  ⟨"atomic_cxchg_relaxed_seqcst", false, false, true⟩,
  ⟨"atomic_cxchg_acquire_relaxed", false, false, true⟩,
  ⟨"atomic_cxchg_acquire_acquire", false, false, true⟩,
  ⟨"atomic_cxchg_acquire_seqcst", false, false, true⟩,
  ⟨"atomic_cxchg_release_relaxed", false, false, true⟩,
  ⟨"atomic_cxchg_release_acquire", false, false, true⟩,
  ⟨"atomic_cxchg_release_seqcst", false, false, true⟩,
  ⟨"atomic_cxchg_acqrel_relaxed", false, false, true⟩,
  ⟨"atomic_cxchg_acqrel_acquire", false, false, true⟩,
  ⟨"atomic_cxchg_acqrel_seqcst", false, false, true⟩,
  ⟨"atomic_cxchg_seqcst_relaxed", false, false, true⟩,
  ⟨"atomic_cxchg_seqcst_acquire", false, false, true⟩,
  ⟨"atomic_cxchg_seqcst_seqcst", false, false, true⟩,
  ⟨"atomic_cxchgweak_relaxed_relaxed", false, false, true⟩,
  ⟨"atomic_cxchgweak_relaxed_acquire", false, false, true⟩,
  ⟨"atomic_cxchgweak_relaxed_seqcst", false, false, true⟩,
  ⟨"atomic_cxchgweak_acquire_relaxed", false, false, true⟩,
  ⟨"atomic_cxchgweak_acquire_acquire", false, false, true⟩,
  ⟨"atomic_cxchgweak_acquire_seqcst", false, false, true⟩,
  ⟨"atomic_cxchgweak_release_relaxed", false, false, true⟩,
  ⟨"atomic_cxchgweak_release_acquire", false, false, true⟩,
  ⟨"atomic_cxchgweak_release_seqcst", false, false, true⟩,
  ⟨"atomic_cxchgweak_acqrel_relaxed", false, false, true⟩,
  ⟨"atomic_cxchgweak_acqrel_acquire", false, false, true⟩,
  ⟨"atomic_cxchgweak_acqrel_seqcst", false, false, true⟩,
  ⟨"atomic_cxchgweak_seqcst_relaxed", false, false, true⟩,
  ⟨"atomic_cxchgweak_seqcst_acquire", false, false, true⟩,
  ⟨"atomic_cxchgweak_seqcst_seqcst", false, false, true⟩,
  ⟨"atomic_load_seqcst", false, false, true⟩,
  ⟨"atomic_load_acquire", false, false, true⟩,
  ⟨"atomic_load_relaxed", false, false, true⟩,
  ⟨"atomic_load_unordered", false, false, true⟩,
  ⟨"atomic_store_seqcst", false, false, true⟩,
  ⟨"atomic_store_release", false, false, true⟩]

/-- Part 2 of the intrinsic declaration table (split for elaboration). -/
def intrinsicDeclsP2 : List IntrinsicDecl := [
  ⟨"atomic_store_relaxed", false, false, true⟩,
  ⟨"atomic_store_unordered", false, false, true⟩,
  ⟨"atomic_xchg_seqcst", false, false, true⟩,
  ⟨"atomic_xchg_acquire", false, false, true⟩,
  ⟨"atomic_xchg_release", false, false, true⟩,
  ⟨"atomic_xchg_acqrel", false, false, true⟩,
  ⟨"atomic_xchg_relaxed", false, false, true⟩,
  ⟨"atomic_xadd_seqcst", false, false, true⟩,
  ⟨"atomic_xadd_acquire", false, false, true⟩,
  ⟨"atomic_xadd_release", false, false, true⟩,
  ⟨"atomic_xadd_acqrel", false, false, true⟩,
  ⟨"atomic_xadd_relaxed", false, false, true⟩,
  ⟨"atomic_xsub_seqcst", false, false, true⟩,
  ⟨"atomic_xsub_acquire", false, false, true⟩,
  ⟨"atomic_xsub_release", false, false, true⟩,
  ⟨"atomic_xsub_acqrel", false, false, true⟩,
  ⟨"atomic_xsub_relaxed", false, false, true⟩,
  ⟨"atomic_and_seqcst", false, false, true⟩,
  ⟨"atomic_and_acquire", false, false, true⟩,
  ⟨"atomic_and_release", false, false, true⟩,
  ⟨"atomic_and_acqrel", false, false, true⟩,
  ⟨"atomic_and_relaxed", false, false, true⟩,
  ⟨"atomic_nand_seqcst", false, false, true⟩,
  ⟨"atomic_nand_acquire", false, false, true⟩,
  ⟨"atomic_nand_release", false, false, true⟩,
  ⟨"atomic_nand_acqrel", false, false, true⟩,
  ⟨"atomic_nand_relaxed", false, false, true⟩,
  ⟨"atomic_or_seqcst", false, false, true⟩,
  ⟨"atomic_or_acquire", false, false, true⟩,
  ⟨"atomic_or_release", false, false, true⟩,
  ⟨"atomic_or_acqrel", false, false, true⟩,
  ⟨"atomic_or_relaxed", false, false, true⟩,
  ⟨"atomic_xor_seqcst", false, false, true⟩,
  ⟨"atomic_xor_acquire", false, false, true⟩,
  ⟨"atomic_xor_release", false, false, true⟩,
  ⟨"atomic_xor_acqrel", false, false, true⟩]

/-- Part 3 of the intrinsic declaration table (split for elaboration). -/
def intrinsicDeclsP3 : List IntrinsicDecl := [
  ⟨"atomic_xor_relaxed", false, false, true⟩,
  ⟨"atomic_max_seqcst", false, false, true⟩,
  ⟨"atomic_max_acquire", false, false, true⟩,
  ⟨"atomic_max_release", false, false, true⟩,
  ⟨"atomic_max_acqrel", false, false, true⟩,
  ⟨"atomic_max_relaxed", false, false, true⟩,
  ⟨"atomic_min_seqcst", false, false, true⟩,
  ⟨"atomic_min_acquire", false, false, true⟩,
  ⟨"atomic_min_release", false, false, true⟩,
  ⟨"atomic_min_acqrel", false, false, true⟩,
  ⟨"atomic_min_relaxed", false, false, true⟩,
  ⟨"atomic_umin_seqcst", false, false, true⟩,
  ⟨"atomic_umin_acquire", false, false, true⟩,
  ⟨"atomic_umin_release", false, false, true⟩,
  ⟨"atomic_umin_acqrel", false, false, true⟩,
  ⟨"atomic_umin_relaxed", false, false, true⟩,
  ⟨"atomic_umax_seqcst", false, false, true⟩,
  ⟨"atomic_umax_acquire", false, false, true⟩,
  ⟨"atomic_umax_release", false, false, true⟩,
  ⟨"atomic_umax_acqrel", false, false, true⟩,
  ⟨"atomic_umax_relaxed", false, false, true⟩,
  ⟨"atomic_fence_seqcst", false, false, true⟩,
  ⟨"atomic_fence_acquire", false, false, true⟩,
  ⟨"atomic_fence_release", false, false, true⟩,
  ⟨"atomic_fence_acqrel", false, false, true⟩,
  ⟨"atomic_singlethreadfence_seqcst", false, false, true⟩,
  ⟨"atomic_singlethreadfence_acquire", false, false, true⟩,
  ⟨"atomic_singlethreadfence_release", false, false, true⟩,
  ⟨"atomic_singlethreadfence_acqrel", false, false, true⟩,
  ⟨"prefetch_read_data", false, false, true⟩,
  ⟨"prefetch_write_data", false, false, true⟩,
  ⟨"prefetch_read_instruction", false, false, true⟩,
  ⟨"prefetch_write_instruction", false, false, true⟩,
  ⟨"rustc_peek", false, false, true⟩,
  ⟨"abort", false, false, true⟩,
  ⟨"unreachable", true, false, true⟩]

/-- Part 4 of the intrinsic declaration table (split for elaboration). -/
def intrinsicDeclsP4 : List IntrinsicDecl := [
  ⟨"assume", true, false, true⟩,
  ⟨"likely", false, true, true⟩,
  ⟨"unlikely", false, true, true⟩,
  ⟨"select_unpredictable", false, false, true⟩,
  ⟨"breakpoint", false, false, true⟩,
  ⟨"assert_inhabited", true, false, true⟩,
  ⟨"assert_zero_valid", true, false, true⟩,
  ⟨"assert_mem_uninitialized_valid", true, false, true⟩,
  ⟨"caller_location", true, false, true⟩,
  ⟨"forget", false, true, true⟩,
  ⟨"transmute", true, false, true⟩,
  ⟨"transmute_unchecked", true, false, true⟩,
  ⟨"needs_drop", true, false, true⟩,
  ⟨"offset", true, false, true⟩,
  ⟨"arith_offset", true, false, true⟩,
  ⟨"ptr_mask", false, false, true⟩,
  ⟨"volatile_copy_nonoverlapping_memory", false, false, true⟩,
  ⟨"volatile_copy_memory", false, false, true⟩,
  ⟨"volatile_set_memory", false, false, true⟩,
  ⟨"volatile_load", false, false, true⟩,
  ⟨"volatile_store", false, false, true⟩,
  ⟨"unaligned_volatile_load", false, false, true⟩,
  ⟨"unaligned_volatile_store", false, false, true⟩,
  ⟨"sqrtf16", false, false, true⟩,
  ⟨"sqrtf32", false, false, true⟩,
  ⟨"sqrtf64", false, false, true⟩,
  ⟨"sqrtf128", false, false, true⟩,
  ⟨"powif16", false, false, true⟩,
  ⟨"powif32", false, false, true⟩,
  ⟨"powif64", false, false, true⟩,
  ⟨"powif128", false, false, true⟩,
  ⟨"sinf16", false, false, true⟩,
  ⟨"sinf32", false, false, true⟩,
  ⟨"sinf64", false, false, true⟩,
  ⟨"sinf128", false, false, true⟩,
  ⟨"cosf16", false, false, true⟩]

/-- Part 5 of the intrinsic declaration table (split for elaboration). -/
def intrinsicDeclsP5 : List IntrinsicDecl := [
  ⟨"cosf32", false, false, true⟩,
  ⟨"cosf64", false, false, true⟩,
  ⟨"cosf128", false, false, true⟩,
  ⟨"powf16", false, false, true⟩,
  ⟨"powf32", false, false, true⟩,
  ⟨"powf64", false, false, true⟩,
  ⟨"powf128", false, false, true⟩,
  ⟨"expf16", false, false, true⟩,
  ⟨"expf32", false, false, true⟩,
  ⟨"expf64", false, false, true⟩,
  ⟨"expf128", false, false, true⟩,
  ⟨"exp2f16", false, false, true⟩,
  ⟨"exp2f32", false, false, true⟩,
  ⟨"exp2f64", false, false, true⟩,
  ⟨"exp2f128", false, false, true⟩,
  ⟨"logf16", false, false, true⟩,
  ⟨"logf32", false, false, true⟩,
  ⟨"logf64", false, false, true⟩,
  ⟨"logf128", false, false, true⟩,
  ⟨"log10f16", false, false, true⟩,
  ⟨"log10f32", false, false, true⟩,
  ⟨"log10f64", false, false, true⟩,
  ⟨"log10f128", false, false, true⟩,
  ⟨"log2f16", false, false, true⟩,
  ⟨"log2f32", false, false, true⟩,
  ⟨"log2f64", false, false, true⟩,
  ⟨"log2f128", false, false, true⟩,
  ⟨"fmaf16", false, false, true⟩,
  ⟨"fmaf32", false, false, true⟩,
  ⟨"fmaf64", false, false, true⟩,
  ⟨"fmaf128", false, false, true⟩,
  ⟨"fabsf16", false, false, true⟩,
  ⟨"fabsf32", false, false, true⟩,
  ⟨"fabsf64", false, false, true⟩,
  ⟨"fabsf128", false, false, true⟩,
  ⟨"minnumf16", false, false, true⟩]

/-- Part 6 of the intrinsic declaration table (split for elaboration). -/
def intrinsicDeclsP6 : List IntrinsicDecl := [
  ⟨"minnumf32", false, false, true⟩,
  ⟨"minnumf64", false, false, true⟩,
  ⟨"minnumf128", false, false, true⟩,
  ⟨"maxnumf16", false, false, true⟩,
  ⟨"maxnumf32", false, false, true⟩,
  ⟨"maxnumf64", false, false, true⟩,
  ⟨"maxnumf128", false, false, true⟩,
  ⟨"copysignf16", false, false, true⟩,
  ⟨"copysignf32", false, false, true⟩,
  ⟨"copysignf64", false, false, true⟩,
  ⟨"copysignf128", false, false, true⟩,
  ⟨"floorf16", false, false, true⟩,
  ⟨"floorf32", false, false, true⟩,
  ⟨"floorf64", false, false, true⟩,
  ⟨"floorf128", false, false, true⟩,
  ⟨"ceilf16", false, false, true⟩,
  ⟨"ceilf32", false, false, true⟩,
  ⟨"ceilf64", false, false, true⟩,
  ⟨"ceilf128", false, false, true⟩,
  ⟨"truncf16", false, false, true⟩,
  ⟨"truncf32", false, false, true⟩,
  ⟨"truncf64", false, false, true⟩,
  ⟨"truncf128", false, false, true⟩,
  ⟨"rintf16", false, false, true⟩,
  ⟨"rintf32", false, false, true⟩,
  ⟨"rintf64", false, false, true⟩,
  ⟨"rintf128", false, false, true⟩,
  ⟨"nearbyintf16", false, false, true⟩,
  ⟨"nearbyintf32", false, false, true⟩,
  ⟨"nearbyintf64", false, false, true⟩,
  ⟨"nearbyintf128", false, false, true⟩,
  ⟨"roundf16", false, false, true⟩,
  ⟨"roundf32", false, false, true⟩,
  ⟨"roundf64", false, false, true⟩,
  ⟨"roundf128", false, false, true⟩,
  ⟨"roundevenf16", false, false, true⟩]

/-- Part 7 of the intrinsic declaration table (split for elaboration). -/
def intrinsicDeclsP7 : List IntrinsicDecl := [
  ⟨"roundevenf32", false, false, true⟩,
  ⟨"roundevenf64", false, false, true⟩,
  ⟨"roundevenf128", false, false, true⟩,
  ⟨"fadd_fast", false, false, true⟩,
  ⟨"fsub_fast", false, false, true⟩,
  ⟨"fmul_fast", false, false, true⟩,
  ⟨"fdiv_fast", false, false, true⟩,
  ⟨"frem_fast", false, false, true⟩,
  ⟨"fadd_algebraic", false, false, true⟩,
  ⟨"fsub_algebraic", false, false, true⟩,
  ⟨"fmul_algebraic", false, false, true⟩,
  ⟨"fdiv_algebraic", false, false, true⟩,
  ⟨"frem_algebraic", false, false, true⟩,
  ⟨"float_to_int_unchecked", false, false, true⟩,
  ⟨"ctpop", true, false, true⟩,
  ⟨"ctlz", true, false, true⟩,
  ⟨"ctlz_nonzero", true, false, true⟩,
  ⟨"cttz", true, false, true⟩,
  ⟨"cttz_nonzero", true, false, true⟩,
  ⟨"bswap", true, false, true⟩,
  ⟨"bitreverse", true, false, true⟩,
  ⟨"three_way_compare", false, true, false⟩,
  ⟨"add_with_overflow", true, false, true⟩,
  ⟨"sub_with_overflow", true, false, true⟩,
  ⟨"mul_with_overflow", true, false, true⟩,
  ⟨"exact_div", false, true, true⟩,
  ⟨"unchecked_div", true, false, true⟩,
  ⟨"unchecked_rem", true, false, true⟩,
  ⟨"unchecked_shl", true, false, true⟩,
  ⟨"unchecked_shr", true, false, true⟩,
  ⟨"unchecked_add", true, false, true⟩,
  ⟨"unchecked_sub", true, false, true⟩,
  ⟨"unchecked_mul", true, false, true⟩,
  ⟨"rotate_left", true, false, true⟩,
  ⟨"rotate_right", true, false, true⟩,
  ⟨"wrapping_add", true, false, true⟩]

/-- Part 8 of the intrinsic declaration table (split for elaboration). -/
def intrinsicDeclsP8 : List IntrinsicDecl := [
  ⟨"wrapping_sub", true, false, true⟩,
  ⟨"wrapping_mul", true, false, true⟩,
  ⟨"saturating_add", true, false, true⟩,
  ⟨"saturating_sub", true, false, true⟩,
  ⟨"read_via_copy", true, false, true⟩,
  ⟨"write_via_move", false, true, true⟩,
  ⟨"discriminant_value", true, false, true⟩,
  ⟨"catch_unwind", false, false, true⟩,
  ⟨"nontemporal_store", false, false, true⟩,
  ⟨"ptr_offset_from", true, false, true⟩,
  ⟨"ptr_offset_from_unsigned", false, true, true⟩,
  ⟨"ptr_guaranteed_cmp", false, true, true⟩,
  ⟨"raw_eq", false, true, true⟩,
  ⟨"compare_bytes", false, true, true⟩,
  ⟨"black_box", false, true, true⟩,
  ⟨"const_eval_select", false, true, false⟩,
  ⟨"is_val_statically_known", false, true, true⟩,
  ⟨"typed_swap", false, true, true⟩,
  ⟨"ub_checks", false, true, false⟩,
  ⟨"const_allocate", false, true, true⟩,
  ⟨"const_deallocate", false, true, true⟩,
  ⟨"vtable_size", false, false, true⟩,
  ⟨"vtable_align", false, false, true⟩,
  ⟨"size_of", true, false, true⟩,
  ⟨"min_align_of", true, false, true⟩,
  ⟨"pref_align_of", false, true, true⟩,
  ⟨"variant_count", false, true, true⟩,
  ⟨"size_of_val", false, true, true⟩,
  ⟨"min_align_of_val", false, true, true⟩,
  ⟨"type_name", false, true, true⟩,
  ⟨"type_id", false, true, true⟩,
  ⟨"aggregate_raw_ptr", true, false, true⟩,
  ⟨"ptr_metadata", true, false, true⟩,
  ⟨"copy_nonoverlapping", true, false, true⟩,
  ⟨"copy", true, false, true⟩,
  ⟨"write_bytes", false, true, true⟩]

/-- The complete table of intrinsic declarations of `intrinsics.rs`, in
source order: every `fn` item of an `extern "rust-intrinsic"` block
(including the blocks nested inside the `copy_nonoverlapping`, `copy` and
`write_bytes` wrappers) and every `fn` item with the `rustc_intrinsic`
attribute, with its `rustc_const_stable` / `rustc_const_unstable` /
`rustc_nounwind` attribute flags. -/
def intrinsicDecls : List IntrinsicDecl := intrinsicDeclsP1 ++ intrinsicDeclsP2 ++ intrinsicDeclsP3 ++ intrinsicDeclsP4 ++ intrinsicDeclsP5 ++ intrinsicDeclsP6 ++ intrinsicDeclsP7 ++ intrinsicDeclsP8

/-- The function names of all intrinsic declarations, in source order. -/
def intrinsicNames : List String := intrinsicDecls.map IntrinsicDecl.name

/-- Is the first character list a leading segment of the second. -/
def charsLead : List Char → List Char → Bool
  | [], _ => true
  | _ :: _, [] => false
  | c :: p, d :: s => c == d && charsLead p s

/-- Does the string `s` start with `p` (computed on the underlying character
lists, so that it evaluates inside the kernel). -/
def strStarts (p s : String) : Bool := charsLead p.data s.data

/-- One atomic intrinsic declaration, split as the operation name and the
trailing memory-ordering suffix components of the function name: the source
name is `atomic_` followed by the operation and one underscore-separated
ordering component per element of `orderings`. -/
structure AtomicDecl where
  op : String
  orderings : List String
deriving DecidableEq

/-- The source function name an atomic declaration denotes. -/
def AtomicDecl.name (d : AtomicDecl) : String :=
  "atomic_" ++ d.op ++ String.join (d.orderings.map (fun o => "_" ++ o))

/-- Part 1 of the atomic declaration table (split for elaboration). -/
def atomicDeclsP1 : List AtomicDecl := [
  ⟨"cxchg", ["relaxed", "relaxed"]⟩,
  ⟨"cxchg", ["relaxed", "acquire"]⟩,
  ⟨"cxchg", ["relaxed", "seqcst"]⟩,
  ⟨"cxchg", ["acquire", "relaxed"]⟩,
  ⟨"cxchg", ["acquire", "acquire"]⟩,
  ⟨"cxchg", ["acquire", "seqcst"]⟩,
  ⟨"cxchg", ["release", "relaxed"]⟩,
  ⟨"cxchg", ["release", "acquire"]⟩,
  ⟨"cxchg", ["release", "seqcst"]⟩,
  ⟨"cxchg", ["acqrel", "relaxed"]⟩,
  ⟨"cxchg", ["acqrel", "acquire"]⟩,
  ⟨"cxchg", ["acqrel", "seqcst"]⟩,
  ⟨"cxchg", ["seqcst", "relaxed"]⟩,
  ⟨"cxchg", ["seqcst", "acquire"]⟩,
  ⟨"cxchg", ["seqcst", "seqcst"]⟩,
  ⟨"cxchgweak", ["relaxed", "relaxed"]⟩,
  ⟨"cxchgweak", ["relaxed", "acquire"]⟩,
  ⟨"cxchgweak", ["relaxed", "seqcst"]⟩,
  ⟨"cxchgweak", ["acquire", "relaxed"]⟩,
  ⟨"cxchgweak", ["acquire", "acquire"]⟩,
  ⟨"cxchgweak", ["acquire", "seqcst"]⟩,
  ⟨"cxchgweak", ["release", "relaxed"]⟩,
  ⟨"cxchgweak", ["release", "acquire"]⟩,
  ⟨"cxchgweak", ["release", "seqcst"]⟩,
  ⟨"cxchgweak", ["acqrel", "relaxed"]⟩,
  ⟨"cxchgweak", ["acqrel", "acquire"]⟩,
  ⟨"cxchgweak", ["acqrel", "seqcst"]⟩,
  ⟨"cxchgweak", ["seqcst", "relaxed"]⟩,
  ⟨"cxchgweak", ["seqcst", "acquire"]⟩,
  ⟨"cxchgweak", ["seqcst", "seqcst"]⟩,
  ⟨"load", ["seqcst"]⟩,
  ⟨"load", ["acquire"]⟩,
  ⟨"load", ["relaxed"]⟩,
  ⟨"load", ["unordered"]⟩]

/-- Part 2 of the atomic declaration table (split for elaboration). -/
def atomicDeclsP2 : List AtomicDecl := [
  ⟨"store", ["seqcst"]⟩,
  ⟨"store", ["release"]⟩,
  ⟨"store", ["relaxed"]⟩,
  ⟨"store", ["unordered"]⟩,
  ⟨"xchg", ["seqcst"]⟩,
  ⟨"xchg", ["acquire"]⟩,
  ⟨"xchg", ["release"]⟩,
  ⟨"xchg", ["acqrel"]⟩,
  ⟨"xchg", ["relaxed"]⟩,
  ⟨"xadd", ["seqcst"]⟩,
  ⟨"xadd", ["acquire"]⟩,
  ⟨"xadd", ["release"]⟩,
  ⟨"xadd", ["acqrel"]⟩,
  ⟨"xadd", ["relaxed"]⟩,
  ⟨"xsub", ["seqcst"]⟩,
  ⟨"xsub", ["acquire"]⟩,
  ⟨"xsub", ["release"]⟩,
  ⟨"xsub", ["acqrel"]⟩,
  ⟨"xsub", ["relaxed"]⟩,
  ⟨"and", ["seqcst"]⟩,
  ⟨"and", ["acquire"]⟩,
  ⟨"and", ["release"]⟩,
  ⟨"and", ["acqrel"]⟩,
  ⟨"and", ["relaxed"]⟩,
  ⟨"nand", ["seqcst"]⟩,
  ⟨"nand", ["acquire"]⟩,
  ⟨"nand", ["release"]⟩,
  ⟨"nand", ["acqrel"]⟩,
  ⟨"nand", ["relaxed"]⟩,
  ⟨"or", ["seqcst"]⟩,
  ⟨"or", ["acquire"]⟩,
  ⟨"or", ["release"]⟩,
  ⟨"or", ["acqrel"]⟩,
  ⟨"or", ["relaxed"]⟩]

/-- Part 3 of the atomic declaration table (split for elaboration). -/
def atomicDeclsP3 : List AtomicDecl := [
  ⟨"xor", ["seqcst"]⟩,
  ⟨"xor", ["acquire"]⟩,
  ⟨"xor", ["release"]⟩,
  ⟨"xor", ["acqrel"]⟩,
  ⟨"xor", ["relaxed"]⟩,
  ⟨"max", ["seqcst"]⟩,
  ⟨"max", ["acquire"]⟩,
  ⟨"max", ["release"]⟩,
  ⟨"max", ["acqrel"]⟩,
  ⟨"max", ["relaxed"]⟩,
  ⟨"min", ["seqcst"]⟩,
  ⟨"min", ["acquire"]⟩,
  ⟨"min", ["release"]⟩,
  ⟨"min", ["acqrel"]⟩,
  ⟨"min", ["relaxed"]⟩,
  ⟨"umin", ["seqcst"]⟩,
  ⟨"umin", ["acquire"]⟩,
  ⟨"umin", ["release"]⟩,
  ⟨"umin", ["acqrel"]⟩,
  ⟨"umin", ["relaxed"]⟩,
  ⟨"umax", ["seqcst"]⟩,
  ⟨"umax", ["acquire"]⟩,
  ⟨"umax", ["release"]⟩,
  ⟨"umax", ["acqrel"]⟩,
  ⟨"umax", ["relaxed"]⟩,
  ⟨"fence", ["seqcst"]⟩,
  ⟨"fence", ["acquire"]⟩,
  ⟨"fence", ["release"]⟩,
  ⟨"fence", ["acqrel"]⟩,
  ⟨"singlethreadfence", ["seqcst"]⟩,
  ⟨"singlethreadfence", ["acquire"]⟩,
  ⟨"singlethreadfence", ["release"]⟩,
  ⟨"singlethreadfence", ["acqrel"]⟩]

/-- All atomic intrinsic declarations of `intrinsics.rs` (the functions whose
name starts with `atomic_`), in source order, each split as its operation and
its trailing memory-ordering suffix components. -/
def atomicDecls : List AtomicDecl := atomicDeclsP1 ++ atomicDeclsP2 ++ atomicDeclsP3

/-- The five memory orderings enumerated by the spec: relaxed, acquire,
release, acquire-release and sequentially-consistent. -/
def specOrderings : List String := ["relaxed", "acquire", "release", "acqrel", "seqcst"]

/-- The failure orderings of the compare-exchange families. -/
def cxchgFailureOrderings : List String := ["relaxed", "acquire", "seqcst"]

/-- The compare-exchange family names `base_<success>_<failure>`, success
ranging over the five orderings and failure over the three failure
orderings, in the order of the source listing. -/
def cxchgNames (base : String) : List String :=
  (specOrderings.map (fun s =>
    cxchgFailureOrderings.map (fun f => base ++ "_" ++ s ++ "_" ++ f))).flatten

/-- The four floating-point widths of the `<op>f16/f32/f64/f128` naming
convention. -/
def floatWidths : List String := ["f16", "f32", "f64", "f128"]

/-- The float-math operations of `intrinsics.rs` that are declared through
the `<op>f16/f32/f64/f128` convention. -/
def floatOps : List String :=
  ["sqrt", "powi", "sin", "cos", "pow", "exp", "exp2", "log", "log10", "log2",
   "fma", "fabs", "minnum", "maxnum", "copysign", "floor", "ceil", "trunc",
   "rint", "nearbyint", "round", "roundeven"]

/-- The three constness classifications: stable-const, unstable-const and
runtime-only. -/
inductive Constness
  | stableConst
  | unstableConst
  | runtimeOnly
deriving DecidableEq, BEq

/-- The constness classification an intrinsic declaration carries, read off
its const attributes: a `rustc_const_stable` attribute gives stable-const, a
`rustc_const_unstable` attribute gives unstable-const, neither gives
runtime-only. -/
def IntrinsicDecl.constness (d : IntrinsicDecl) : Constness :=
  if d.constStable then Constness.stableConst
  else if d.constUnstable then Constness.unstableConst
  else Constness.runtimeOnly

/-- One function of `intrinsics.rs` that is given a body, with two facts
about that body read off the source: whether the body is a single invocation
of the unreachable macro, and whether the body does nothing but forward the
parameters to a raw intrinsic declared with the same name (possibly after an
`assert_unsafe_precondition` check, as in the copy and write_bytes
wrappers).  `runtime` and `compiletime` are the local helper functions
nested inside `miri_promise_symbolic_alignment`. -/
structure BodiedFn where
  name : String
  unreachableBody : Bool
  forwardsToSameNameIntrinsic : Bool
deriving DecidableEq

/-- Every function of `intrinsics.rs` that is given a body, in source order,
with the two body facts.  The comments quote the body. -/
def bodiedFns : List BodiedFn := [
  ⟨"drop_in_place", false, false⟩, -- forwards to crate::ptr::drop_in_place, which is not an intrinsic
  ⟨"assume", false, false⟩, -- if !b { unreachable() }: conditional, calls a differently named intrinsic
  ⟨"likely", false, false⟩, -- returns b
  ⟨"unlikely", false, false⟩, -- returns b
  ⟨"select_unpredictable", false, false⟩, -- if b { true_val } else { false_val }
  ⟨"ptr_guaranteed_cmp", false, false⟩, -- (ptr == other) as u8
  ⟨"const_eval_select", true, false⟩,
  ⟨"is_val_statically_known", false, false⟩, -- returns false
  ⟨"typed_swap", false, false⟩, -- calls ptr::swap_nonoverlapping
  ⟨"ub_checks", false, false⟩, -- cfg!(ub_checks)
  ⟨"const_allocate", false, false⟩, -- returns crate::ptr::null_mut()
  ⟨"const_deallocate", false, false⟩, -- empty body
  ⟨"vtable_size", true, false⟩,
  ⟨"vtable_align", true, false⟩,
  ⟨"size_of", true, false⟩,
  ⟨"min_align_of", true, false⟩,
  ⟨"pref_align_of", true, false⟩,
  ⟨"variant_count", true, false⟩,
  ⟨"size_of_val", true, false⟩,
  ⟨"min_align_of_val", true, false⟩,
  ⟨"type_name", true, false⟩,
  ⟨"type_id", true, false⟩,
  ⟨"aggregate_raw_ptr", true, false⟩,
  ⟨"ptr_metadata", true, false⟩,
  ⟨"copy_nonoverlapping", false, true⟩, -- assert_unsafe_precondition, then the raw copy_nonoverlapping
  ⟨"copy", false, true⟩, -- assert_unsafe_precondition, then the raw copy
  ⟨"write_bytes", false, true⟩, -- assert_unsafe_precondition, then the raw write_bytes
  ⟨"miri_promise_symbolic_alignment", false, false⟩, -- const_eval_select over the two local helpers
  ⟨"runtime", false, false⟩, -- calls the extern miri_promise_symbolic_alignment, not an intrinsic
  ⟨"compiletime", false, false⟩] -- empty body

/-- The bodied functions whose body is neither an unreachable placeholder
nor a same-name forwarding wrapper: they implement a documented fallback or
helper behavior by their own logic. -/
def ownLogicBodies : List String :=
  ["drop_in_place", "assume", "likely", "unlikely", "select_unpredictable",
   "ptr_guaranteed_cmp", "is_val_statically_known", "typed_swap", "ub_checks",
   "const_allocate", "const_deallocate", "miri_promise_symbolic_alignment",
   "runtime", "compiletime"]

/-- Modelled from the spec: `ub_checks::is_aligned_and_not_null` (the module
`ub_checks` is not part of the sources; the precondition message of the
wrappers reads "both pointer arguments are aligned and non-null") — the
pointer, modelled as a numeric address, is non-null and a multiple of the
alignment. -/
def is_aligned_and_not_null (addr align : Nat) : Bool :=
  addr != 0 && addr % align == 0

/-- Modelled from the spec: `ub_checks::is_nonoverlapping` (the module
`ub_checks` is not part of the sources; the precondition message of the
wrapper reads "the specified memory ranges do not overlap") — the two
regions of `size * count` bytes beginning at the two addresses are
disjoint. -/
def is_nonoverlapping (src dst size count : Nat) : Bool :=
  decide (src + size * count ≤ dst) || decide (dst + size * count ≤ src)

/-- The outcome of one call of a safe copy wrapper: either the
`assert_unsafe_precondition` check panicked, or the call was forwarded to
the raw intrinsic with the given arguments. -/
inductive CopyOutcome
  | panicked
  | forwarded (src dst count : Nat)
deriving DecidableEq

/-- The safe wrapper `copy_nonoverlapping` of `intrinsics.rs`: when UB
checks are enabled (`ubChecks`, the `check_language_ub` condition of
`assert_unsafe_precondition`) it requires both pointers aligned and non-null
and the two regions non-overlapping, panicking otherwise, and then forwards
its arguments to the raw `copy_nonoverlapping` intrinsic.  `size` and
`align` stand for `size_of::<T>()` and `align_of::<T>()`. -/
def copy_nonoverlapping (ubChecks : Bool) (size align src dst count : Nat) : CopyOutcome :=
  if ubChecks &&
      !(is_aligned_and_not_null src align && is_aligned_and_not_null dst align &&
        is_nonoverlapping src dst size count) then
    CopyOutcome.panicked
  else
    CopyOutcome.forwarded src dst count

/-- The safe wrapper `copy` of `intrinsics.rs`: when UB checks are enabled
it requires both pointers aligned and non-null (no overlap condition),
panicking otherwise, and then forwards its arguments to the raw `copy`
intrinsic. -/
def copy (ubChecks : Bool) (_size align src dst count : Nat) : CopyOutcome :=
  if ubChecks &&
      !(is_aligned_and_not_null src align && is_aligned_and_not_null dst align) then
    CopyOutcome.panicked
  else
    CopyOutcome.forwarded src dst count

/-- Modelled from the spec: `crate::ptr::null_mut` (not part of the
sources) — the null pointer, i.e. address 0 in the numeric address model. -/
def null_mut : Nat := 0

/-- The runtime body of `const_allocate`: it ignores both arguments and
returns `crate::ptr::null_mut()`. -/
def const_allocate (_size _align : Nat) : Nat := null_mut

/-- The runtime body of `const_deallocate` is empty: passing the program
state explicitly, the call returns the state unchanged. -/
def const_deallocate (state : σ) (_ptr _size _align : Nat) : σ := state

/-- The body of `likely`: returns its argument. -/
def likely (b : Bool) : Bool := b

/-- The body of `unlikely`: returns its argument. -/
def unlikely (b : Bool) : Bool := b

/-- The body of `select_unpredictable`: `if b { true_val } else { false_val }`. -/
def select_unpredictable (b : Bool) (true_val false_val : α) : α :=
  if b then true_val else false_val

/-- The body of `ptr_guaranteed_cmp`: `(ptr == other) as u8`, on pointers
modelled as numeric addresses (the boolean casts to 1 or 0). -/
def ptr_guaranteed_cmp (ptr other : Nat) : Nat :=
  if ptr == other then 1 else 0

/-- What one call of `assume` does: reach the `unreachable()` call, or fall
through and return unit. -/
inductive AssumeOutcome
  | returnedUnit
  | hitUnreachable
deriving DecidableEq

/-- The body of `assume`: `if !b { unreachable() }` — when the argument is
false it reaches the `unreachable()` call, otherwise it returns unit. -/
def assume (b : Bool) : AssumeOutcome :=
  if !b then AssumeOutcome.hitUnreachable else AssumeOutcome.returnedUnit


/-- The numeric key of a name: its characters read as a base-256 number.
Distinct keys give distinct names, which keeps the uniqueness check cheap
for the kernel. -/
def nameKey (s : String) : Nat := s.data.foldl (fun a c => a * 256 + c.toNat) 0

/-- The structured atomic table is consistent with the declaration table:
its reconstructed names are exactly the `atomic_`-prefixed intrinsic names,
in source order. -/
theorem atomicDecls_names :
    atomicDecls.map AtomicDecl.name = intrinsicNames.filter (strStarts "atomic_") := by decide

/-- C1: the claim as stated is false.  `ptr_guaranteed_cmp` is given a body,
and that body — `(ptr == other) as u8` — is neither an `unreachable!()`
placeholder nor a forwarding of its arguments to a raw intrinsic of the same
name: it computes its result by its own logic. -/
theorem c1_counterexample :
    (⟨"ptr_guaranteed_cmp", false, false⟩ : BodiedFn) ∈ bodiedFns ∧
    ¬ ((bodiedFns.all fun f => f.unreachableBody || f.forwardsToSameNameIntrinsic) = true) := by
  decide

/-- C1 amended: every function of `intrinsics.rs` that is given a body is
exactly one of: an `unreachable!()` placeholder, a thin safe wrapper
forwarding its arguments to the raw intrinsic of the same name, or one of
the listed functions whose body implements a documented fallback or helper
behavior by its own logic. -/
theorem c1_amended_thm :
    (bodiedFns.all fun f =>
      (f.unreachableBody && !f.forwardsToSameNameIntrinsic && !(ownLogicBodies.contains f.name)) ||
      (!f.unreachableBody && f.forwardsToSameNameIntrinsic && !(ownLogicBodies.contains f.name)) ||
      (!f.unreachableBody && !f.forwardsToSameNameIntrinsic && ownLogicBodies.contains f.name)) = true := by
  decide

/-- C2: the claim as stated is false.  `atomic_load_unordered` is an atomic
intrinsic of the module whose ordering suffix is `unordered`, which is not
among the five orderings relaxed, acquire, release, acqrel, seqcst. -/
theorem c2_counterexample :
    (⟨"load", ["unordered"]⟩ : AtomicDecl) ∈ atomicDecls ∧
    AtomicDecl.name ⟨"load", ["unordered"]⟩ = "atomic_load_unordered" ∧
    ¬ ((atomicDecls.all fun d => d.orderings.all specOrderings.contains) = true) := by
  decide

/-- C2 amended: every atomic intrinsic of the module carries ordering
suffixes drawn from the five orderings relaxed, acquire, release, acqrel,
seqcst, except the two legacy declarations `atomic_load_unordered` and
`atomic_store_unordered`, whose single ordering suffix is `unordered`. -/
theorem c2_amended_thm :
    (atomicDecls.all fun d =>
      d.orderings.all specOrderings.contains ||
      ((d.name == "atomic_load_unordered" || d.name == "atomic_store_unordered") &&
        d.orderings == ["unordered"])) = true := by
  decide

/-- C3: with UB checks enabled, the safe wrapper `copy_nonoverlapping`
panicks exactly when one of src and dst is null or misaligned or the two
regions of `size * count` bytes overlap, and otherwise forwards its
arguments to the raw intrinsic; the wrapper `copy` panicks exactly when one
of src and dst is null or misaligned — overlap is not checked, so aligned
non-null overlapping arguments are still forwarded; with UB checks disabled
both wrappers always forward. -/
theorem c3_thm (size align src dst count : Nat) :
    (copy_nonoverlapping true size align src dst count = CopyOutcome.panicked ↔
      ¬ (is_aligned_and_not_null src align = true ∧ is_aligned_and_not_null dst align = true ∧
        is_nonoverlapping src dst size count = true)) ∧
    (copy true size align src dst count = CopyOutcome.panicked ↔
      ¬ (is_aligned_and_not_null src align = true ∧ is_aligned_and_not_null dst align = true)) ∧
    (¬ copy_nonoverlapping true size align src dst count = CopyOutcome.panicked →
      copy_nonoverlapping true size align src dst count = CopyOutcome.forwarded src dst count) ∧
    (¬ copy true size align src dst count = CopyOutcome.panicked →
      copy true size align src dst count = CopyOutcome.forwarded src dst count) ∧
    (is_aligned_and_not_null src align = true → is_aligned_and_not_null dst align = true →
      copy true size align src dst count = CopyOutcome.forwarded src dst count) ∧
    copy_nonoverlapping false size align src dst count = CopyOutcome.forwarded src dst count ∧
    copy false size align src dst count = CopyOutcome.forwarded src dst count := by
  unfold copy_nonoverlapping copy
  cases h1 : is_aligned_and_not_null src align <;>
    cases h2 : is_aligned_and_not_null dst align <;>
      cases h3 : is_nonoverlapping src dst size count <;> simp

/-- C3 witness: at size 1, align 1, src 1, dst 1, count 1 the pointers are
aligned and non-null but the regions overlap: `copy` still forwards. -/
theorem c3_witness :
    copy true 1 1 1 1 1 = CopyOutcome.forwarded 1 1 1 :=
  (c3_thm 1 1 1 1 1).2.2.2.2.1 (by decide) (by decide)

/-- C4: at runtime `const_allocate` returns the null pointer for every size
and alignment, and `const_deallocate` leaves the (explicitly passed) state
unchanged. -/
theorem c4_thm :
    (∀ size align : Nat, const_allocate size align = null_mut ∧ null_mut = 0) ∧
    (∀ (σ : Type) (state : σ) (ptr size align : Nat),
      const_deallocate state ptr size align = state) :=
  ⟨fun _ _ => ⟨rfl, rfl⟩, fun _ _ _ _ _ => rfl⟩

/-- C5: the compare-exchange intrinsics are exactly the 15 variants
`atomic_cxchg_<success>_<failure>` (and 15 of `atomic_cxchgweak_...`) with
success over the five orderings and failure over relaxed, acquire, seqcst;
and each float-math operation of the `<op>f16/f32/f64/f128` convention is
declared in exactly those four widths. -/
theorem c5_thm :
    intrinsicNames.filter (strStarts "atomic_cxchg_") = cxchgNames "atomic_cxchg" ∧
    intrinsicNames.filter (strStarts "atomic_cxchgweak_") = cxchgNames "atomic_cxchgweak" ∧
    (cxchgNames "atomic_cxchg").length = 15 ∧
    (cxchgNames "atomic_cxchgweak").length = 15 ∧
    (floatOps.all fun op =>
      intrinsicNames.filter (strStarts (op ++ "f")) == floatWidths.map (fun w => op ++ w)) = true := by
  refine ⟨by decide, by decide, by decide, by decide, by decide⟩

/-- C6: no intrinsic declaration carries both const attributes, and the
constness classification read off the attributes is exactly one of
stable-const (the `rustc_const_stable` declarations), unstable-const (the
`rustc_const_unstable` declarations) and runtime-only (the declarations with
neither). -/
theorem c6_thm :
    (intrinsicDecls.all fun d =>
      !(d.constStable && d.constUnstable) &&
      ((d.constness == Constness.stableConst) == d.constStable) &&
      ((d.constness == Constness.unstableConst) == (!d.constStable && d.constUnstable)) &&
      ((d.constness == Constness.runtimeOnly) == (!d.constStable && !d.constUnstable))) = true := by
  decide

/-- C7: the intrinsic declarations form a table keyed by name — no two
intrinsic declarations of the module share a function name. -/
theorem c7_thm : intrinsicNames.Nodup :=
  List.Nodup.of_map nameKey (by decide)

/-- C8: the fallback bodies of the branch hints are semantically
transparent: `likely` and `unlikely` are the identity on booleans, and
`select_unpredictable b t f` is `if b then t else f`. -/
theorem c8_thm :
    (∀ b : Bool, likely b = b) ∧ (∀ b : Bool, unlikely b = b) ∧
    (∀ (α : Type) (b : Bool) (t f : α), select_unpredictable b t f = if b then t else f) :=
  ⟨fun _ => rfl, fun _ => rfl, fun _ _ _ _ => rfl⟩

/-- C9: the fallback body of `ptr_guaranteed_cmp` returns the equality of
the two addresses cast to 0 or 1; in particular it only ever returns 0 or 1,
never the value 2 its documentation reserves for an unknown result. -/
theorem c9_thm : ∀ p q : Nat,
    (ptr_guaranteed_cmp p q = if p = q then 1 else 0) ∧
    (ptr_guaranteed_cmp p q = 0 ∨ ptr_guaranteed_cmp p q = 1) := by
  intro p q
  unfold ptr_guaranteed_cmp
  by_cases h : p = q <;> simp [h]

/-- C10: under the precondition that its argument is true, `assume` does not
reach the `unreachable()` call of its body and returns unit. -/
theorem c10_thm : ∀ b : Bool, b = true → assume b = AssumeOutcome.returnedUnit := by
  intro b hb
  subst hb
  rfl

/-- C10 witness: `assume` applied to the concrete argument true. -/
theorem c10_witness : assume true = AssumeOutcome.returnedUnit := c10_thm true rfl

end Intrinsics
